import Mathlib

/-!
Verification development for the Lattice master control plane
(`src/master/db.py` and `src/master/main.py`).

The Python store and HTTP layer are shallowly embedded: every database
mutation is modelled as a pure function from the relevant row(s) and the
request data to a tagged outcome, with the non-deterministic inputs of the
source (fresh UUIDs, `utc_now()` timestamps, generated tokens) passed in
explicitly as parameters.  Dynamic JSON data is modelled by the `JVal`
type below.
-/

namespace Lattice

/-- A JSON-like value, the domain of Python dict payloads handled by the
master.  Python floats are modelled as rationals (non-finite floats are
outside the model); Python ints as `Int`; `bool` is kept separate because
the source distinguishes it via `isinstance` checks. -/
inductive JVal where
  | null : JVal
  | bool (b : Bool) : JVal
  | int (n : Int) : JVal
  | num (q : ℚ) : JVal
  | str (s : String) : JVal
  | arr (xs : List JVal) : JVal
  | obj (fields : List (String × JVal)) : JVal
deriving Repr

/-- Dictionary lookup, `payload.get(key)`: `none` models both an absent key
and a lookup on a non-dict value. -/
def jget : JVal → String → Option JVal
  | .obj fields, key => (fields.find? (fun kv => kv.1 = key)).map (·.2)
  | _, _ => none

/-- `isinstance(value, dict)`. -/
def JVal.isObj : JVal → Bool
  | .obj _ => true
  | _ => false

/-- `isinstance(value, str)`. -/
def JVal.isStr : JVal → Bool
  | .str _ => true
  | _ => false

/-- Truncation toward zero, the behaviour of Python `int(float)`. -/
def ratTruncate (q : ℚ) : Int :=
  if 0 ≤ q then ⌊q⌋ else ⌈q⌉

/-- Round half to even at integer precision, the behaviour of Python
`round` on exactly representable values. -/
def roundHalfEven (q : ℚ) : Int :=
  let f : Int := ⌊q⌋
  let frac : ℚ := q - f
  if frac < 1/2 then f
  else if 1/2 < frac then f + 1
  else if f % 2 = 0 then f else f + 1

/-- Python `round(value, 2)` on the rational model of a float. -/
def pyRound2 (q : ℚ) : ℚ :=
  (roundHalfEven (q * 100) : ℚ) / 100

/-- Decimal-literal parsing used to model Python `float(str)` on finite
decimal literals (optional sign, digits, optional fraction, optional
exponent).  Non-finite literals such as `inf`/`nan` are outside the model. -/
def parseDigits : List Char → Option Nat
  | [] => none
  | cs =>
    if cs.all Char.isDigit then
      some (cs.foldl (fun acc c => acc * 10 + (c.toNat - 48)) 0)
    else
      none

def parseSign : List Char → (Bool × List Char)
  | '-' :: rest => (true, rest)
  | '+' :: rest => (false, rest)
  | cs => (false, cs)

/-- ASCII whitespace stripped by Python `str.strip()`. -/
def pySpace (c : Char) : Bool :=
  c = ' ' || c = '\t' || c = '\n' || c = '\r' || c = '\x0b' || c = '\x0c'

def stripChars (l : List Char) : List Char :=
  ((l.dropWhile pySpace).reverse.dropWhile pySpace).reverse

/-- Python `str.strip()` (ASCII whitespace). -/
def pyStrip (s : String) : String := String.mk (stripChars s.toList)

/-- Python `str.lower()` (ASCII range, which covers every string the
master lowercases). -/
def pyLower (s : String) : String := String.mk (s.toList.map Char.toLower)

/-- Python `str.upper()` (ASCII range). -/
def pyUpper (s : String) : String := String.mk (s.toList.map Char.toUpper)

/-- Python `sub in s` on character lists. -/
def containsSub : List Char → List Char → Bool
  | _, [] => true
  | [], _ :: _ => false
  | c :: rest, sub => sub.isPrefixOf (c :: rest) || containsSub rest sub

def parseMantissa (cs : List Char) : Option ℚ :=
  match cs.splitOn '.' with
  | [whole] => (parseDigits whole).map (fun n => (n : ℚ))
  | [whole, frac] =>
    if whole.isEmpty ∧ frac.isEmpty then none
    else
      let wq : Option ℚ := if whole.isEmpty then some 0 else (parseDigits whole).map (fun n => (n : ℚ))
      let fq : Option ℚ :=
        if frac.isEmpty then some 0
        else (parseDigits frac).map (fun n => (n : ℚ) / ((10 : ℚ) ^ frac.length))
      match wq, fq with
      | some w, some f => some (w + f)
      | _, _ => none
  | _ => none

def pyParseFloat (s : String) : Option ℚ :=
  let cs := stripChars s.toList
  let (neg, cs) := parseSign cs
  let (mantissaChars, expChars) :=
    match cs.splitOn 'e' with
    | [m] =>
      match m.splitOn 'E' with
      | [m2] => (m2, none)
      | [m2, e2] => (m2, some e2)
      | _ => ([], some [])
    | [m, e] => (m, some e)
    | _ => ([], some [])
  match parseMantissa mantissaChars with
  | none => none
  | some m =>
    let signed : ℚ := if neg then -m else m
    match expChars with
    | none => some signed
    | some ec =>
      let (eneg, ed) := parseSign ec
      match parseDigits ed with
      | none => none
      | some e =>
        some (if eneg then signed / (10 : ℚ) ^ e else signed * (10 : ℚ) ^ e)

/-- Python `int(str)`: optional sign and decimal digits. -/
def pyParseInt (s : String) : Option Int :=
  let cs := stripChars s.toList
  let (neg, cs) := parseSign cs
  (parseDigits cs).map (fun n => if neg then -(n : Int) else (n : Int))

/-- `db._as_float`: numbers (including `bool`, a Python `int` subtype)
become floats, strings are parsed, everything else is dropped. -/
def asFloat : Option JVal → Option ℚ
  | some (.bool b) => some (if b then 1 else 0)
  | some (.int n) => some (n : ℚ)
  | some (.num q) => some q
  | some (.str s) => pyParseFloat s
  | _ => none

/-- `db._as_int`: `bool` is rejected explicitly, ints pass through, floats
are truncated toward zero, strings go through `int(float(value))`. -/
def asInt : Option JVal → Option Int
  | some (.bool _) => none
  | some (.int n) => some n
  | some (.num q) => some (ratTruncate q)
  | some (.str s) => (pyParseFloat s).map ratTruncate
  | _ => none

/-- The normalised runtime-metrics record built by
`db._normalize_runtime_metrics`: each field is present only when the
corresponding payload field parsed. -/
structure RuntimeMetrics where
  cpu_percent : Option ℚ
  memory_percent : Option ℚ
  memory_used_bytes : Option Int
  memory_total_bytes : Option Int
  storage_percent : Option ℚ
  storage_used_bytes : Option Int
  storage_total_bytes : Option Int
deriving Repr, DecidableEq

def clampPercent (q : ℚ) : ℚ := max 0 (min 100 (pyRound2 q))

def clampBytes (n : Int) : Int := max 0 n

/-- `db._normalize_runtime_metrics`: `none` when the input is not a dict or
when no field parses (the Python function returns `metrics or None`). -/
def normalizeRuntimeMetrics (value : Option JVal) : Option RuntimeMetrics :=
  match value with
  | some v =>
    if v.isObj then
      let m : RuntimeMetrics := {
        cpu_percent := (asFloat (jget v "cpu_percent")).map clampPercent
        memory_percent := (asFloat (jget v "memory_percent")).map clampPercent
        memory_used_bytes := (asInt (jget v "memory_used_bytes")).map clampBytes
        memory_total_bytes := (asInt (jget v "memory_total_bytes")).map clampBytes
        storage_percent := (asFloat (jget v "storage_percent")).map clampPercent
        storage_used_bytes := (asInt (jget v "storage_used_bytes")).map clampBytes
        storage_total_bytes := (asInt (jget v "storage_total_bytes")).map clampBytes }
      if m.cpu_percent = none ∧ m.memory_percent = none ∧ m.memory_used_bytes = none ∧
          m.memory_total_bytes = none ∧ m.storage_percent = none ∧
          m.storage_used_bytes = none ∧ m.storage_total_bytes = none then
        none
      else
        some m
    else
      none
  | none => none

theorem clampPercent_mem (q : ℚ) : 0 ≤ clampPercent q ∧ clampPercent q ≤ 100 := by
  unfold clampPercent
  constructor
  · exact le_max_left 0 _
  · exact max_le (by norm_num) (min_le_left 100 _)

theorem clampBytes_nonneg (n : Int) : 0 ≤ clampBytes n := le_max_left 0 n

/-! ### Node rows and pairing (`db.pair_node`, `db.record_heartbeat`, `db.rename_node`) -/

/-- A row of the `nodes` table.  `runtime_metrics` carries the decoded
`last_metrics_json` (normalised metrics plus the `updated_at` stamp the
store injects); `agent_hostname` keeps the raw JSON value the pairing
payload supplied, mirroring the dynamically typed column. -/
structure NodeRow where
  id : String
  name : String
  pair_code : String
  state : String
  pair_token : Option String
  created_at : String
  paired_at : Option String
  last_heartbeat_at : Option String
  agent_hostname : Option JVal
  agent_info : Option JVal
  agent_commit : Option String
  runtime_metrics : Option (RuntimeMetrics × String)
  capabilities : Option JVal
deriving Repr

/-- `[A-Z0-9]`. -/
def isPairCodeChar (c : Char) : Bool :=
  (65 ≤ c.toNat && c.toNat ≤ 90) || c.isDigit

/-- `db.normalize_pair_code`. -/
def normalizePairCode (s : String) : String := pyUpper (pyStrip s)

/-- `db.is_valid_pair_code`: the normalised code fullmatches `[A-Z0-9]{6}`. -/
def isValidPairCode (s : String) : Bool :=
  let n := normalizePairCode s
  n.length = 6 && n.toList.all isPairCodeChar

structure PairResponse where
  node_id : String
  node_name : String
  pair_token : String
  state : String
deriving Repr, DecidableEq

inductive PairOutcome where
  | invalidCode : PairOutcome
  | notFound : PairOutcome
  | alreadyPaired : PairOutcome
  | paired (updated : NodeRow) (response : PairResponse) : PairOutcome
deriving Repr

/-- `db.pair_node`.  `row?` is the result of the lookup
`SELECT * FROM nodes WHERE pair_code = normalized`; `freshToken` stands for
the value of `_generate_unique_pair_token` and `now` for `utc_now()`. -/
def pairNode (pairCode : String) (row? : Option NodeRow) (agentInfo : Option JVal)
    (freshToken : String) (now : String) : PairOutcome :=
  if ¬ isValidPairCode pairCode then .invalidCode
  else
    match row? with
    | none => .notFound
    | some row =>
      if row.state ≠ "pending" then .alreadyPaired
      else
        let info := agentInfo.getD (.obj [])
        let updated : NodeRow :=
          { row with
            state := "paired"
            pair_token := some freshToken
            paired_at := some now
            agent_hostname := jget info "hostname"
            agent_info := some info }
        .paired updated
          { node_id := row.id, node_name := row.name
            pair_token := freshToken, state := "paired" }

/-- HTTP status chosen by `main.post_pair` for each store outcome. -/
def postPairHttpCode : PairOutcome → Int
  | .invalidCode => 400
  | .notFound => 404
  | .alreadyPaired => 409
  | .paired _ _ => 200

inductive HeartbeatOutcome where
  | missingToken : HeartbeatOutcome
  | invalidToken : HeartbeatOutcome
  | nodeMismatch : HeartbeatOutcome
  | ok (updated : NodeRow) : HeartbeatOutcome
deriving Repr

/-- The `last_heartbeat_at` value of `db.record_heartbeat`: the raw payload
timestamp whenever it is a string (well-formed or not), else `now`. -/
def heartbeatTimestamp (body : JVal) (now : String) : String :=
  match jget body "timestamp" with
  | some (.str s) => s
  | _ => now

/-- The `extra` dict of a heartbeat payload (`none` unless a dict). -/
def heartbeatExtra (body : JVal) : Option JVal :=
  match jget body "extra" with
  | some v => if v.isObj then some v else none
  | none => none

/-- `extra.get("usage")`. -/
def heartbeatUsage (body : JVal) : Option JVal :=
  (heartbeatExtra body).bind (fun e => jget e "usage")

/-- The vm capability dict of a heartbeat payload (`extra.get("vm")` when
a dict). -/
def heartbeatVmCapability (body : JVal) : Option JVal :=
  match (heartbeatExtra body).bind (fun e => jget e "vm") with
  | some v => if v.isObj then some v else none
  | _ => none

/-- The cleaned `extra.get("git_commit")` (a nonempty string, stripped). -/
def heartbeatCommit (body : JVal) : Option String :=
  match (heartbeatExtra body).bind (fun e => jget e "git_commit") with
  | some (.str s) => if pyStrip s = "" then none else some (pyStrip s)
  | _ => none

/-- `db.record_heartbeat`.  `row?` is the lookup
`SELECT * FROM nodes WHERE pair_token = token`; `now` is `utc_now()`.
The heartbeat log entry appended to `node_logs` is not part of the node
row and is left out of this function. -/
def recordHeartbeat (pairToken : String) (row? : Option NodeRow) (nodeId : String)
    (payload : Option JVal) (now : String) : HeartbeatOutcome :=
  let token := pyStrip pairToken
  if token = "" then .missingToken
  else
    match row? with
    | none => .invalidToken
    | some row =>
      if row.id ≠ pyStrip nodeId then .nodeMismatch
      else
        let body := payload.getD (.obj [])
        let lastHeartbeatAt : String := heartbeatTimestamp body now
        let metricsNew : Option (RuntimeMetrics × String) :=
          (normalizeRuntimeMetrics (heartbeatUsage body)).map (fun m => (m, lastHeartbeatAt))
        let capabilitiesNew : Option JVal :=
          (heartbeatVmCapability body).map (fun v => .obj [("vm", v)])
        .ok
          { row with
            last_heartbeat_at := some lastHeartbeatAt
            runtime_metrics := metricsNew.or row.runtime_metrics
            agent_commit := (heartbeatCommit body).or row.agent_commit
            capabilities := capabilitiesNew.or row.capabilities }

inductive RenameOutcome where
  | notFound : RenameOutcome
  | invalidName : RenameOutcome
  | ok (updated : NodeRow) : RenameOutcome
deriving Repr

/-- `db.rename_node` (the rename log entry is left out, as for heartbeats). -/
def renameNode (row? : Option NodeRow) (nodeId : String) (name : String) : RenameOutcome :=
  if pyStrip nodeId = "" then .notFound
  else if pyStrip name = "" then .invalidName
  else
    match row? with
    | none => .notFound
    | some row =>
      if row.name ≠ pyStrip name then .ok { row with name := pyStrip name }
      else .ok row

/-- The store operations of this development that can touch an existing
node row (everything except `delete_node`/`create_node`). -/
inductive NodeStoreOp where
  | pair (code : String) (agentInfo : Option JVal) (freshToken now : String)
  | heartbeat (token nodeId : String) (payload : Option JVal) (now : String)
  | rename (nodeId name : String)

/-- The node row after running one store operation against it (unchanged
whenever the operation rejects). -/
def applyNodeOp (row : NodeRow) : NodeStoreOp → NodeRow
  | .pair code agentInfo freshToken now =>
    match pairNode code (some row) agentInfo freshToken now with
    | .paired updated _ => updated
    | _ => row
  | .heartbeat token nodeId payload now =>
    match recordHeartbeat token (some row) nodeId payload now with
    | .ok updated => updated
    | _ => row
  | .rename nodeId name =>
    match renameNode (some row) nodeId name with
    | .ok updated => updated
    | _ => row

/-! ### Log polling (`db.list_node_logs`, `main._resolve_logs_request`) -/

/-- A row of the `node_logs` table. -/
structure LogEntry where
  id : Nat
  node_id : String
  created_at : String
  level : String
  message : String
  meta : Option JVal
deriving Repr

/-- `max(1, min(clean_limit, 500))` in `db.list_node_logs`. -/
def clampLogsLimit (limit : Int) : Int := max 1 (min limit 500)

inductive LogsResult where
  | notFound : LogsResult
  | ok (items : List LogEntry) : LogsResult
deriving Repr

/-- `db.list_node_logs`.  `nodeExists` is the `SELECT 1 FROM nodes` probe
(false also covers the blank-node-id early return) and `logs` is the
node_logs rows of the node in ascending `id` order, so that
`WHERE id > ? ORDER BY id ASC LIMIT ?` is filter-then-take and
`ORDER BY id DESC LIMIT ?` then `reversed(...)` is reverse, take,
reverse. -/
def listNodeLogs (nodeExists : Bool) (logs : List LogEntry) (limit : Int)
    (sinceId : Option Int) : LogsResult :=
  if ¬ nodeExists then .notFound
  else
    let cleanLimit := (clampLogsLimit limit).toNat
    match sinceId with
    | some s => .ok ((logs.filter (fun e => (e.id : Int) > s)).take cleanLimit)
    | none => .ok ((logs.reverse.take cleanLimit).reverse)

/-- Response body of the logs endpoint, paired with the HTTP status. -/
inductive LogsBody where
  | err (message : String)
  | ok (items : List LogEntry) (nextSinceId : Option Int)
deriving Repr

/-- The `since_id` parsing of `main._resolve_logs_request`: absent means
no filter, a present value must parse as an integer. -/
def parseSinceId : Option String → Option (Option Int)
  | none => some none
  | some raw => (pyParseInt raw).map some

/-- `main._resolve_logs_request`: parse `limit` (default `"200"`) and
`since_id` from the query, call the store, and map `not_found` to an empty
200 response echoing the since_id of the request. -/
def resolveLogsRequest (nodeExists : Bool) (logs : List LogEntry)
    (limitRaw : Option String) (sinceIdRaw : Option String) : LogsBody × Int :=
  match pyParseInt (limitRaw.getD "200") with
  | none => (.err "limit must be an integer", 400)
  | some limit =>
    match parseSinceId sinceIdRaw with
    | none => (.err "since_id must be an integer", 400)
    | some sinceId =>
      match listNodeLogs nodeExists logs limit sinceId with
      | .notFound => (.ok [] sinceId, 200)
      | .ok items =>
        let nextSinceId : Option Int :=
          match items.getLast? with
          | some e => some (e.id : Int)
          | none => sinceId
        (.ok items nextSinceId, 200)

/-! ### VM rows, operations and commands
(`db.queue_vm_action`, `db.apply_vm_command_result`) -/

/-- A row of the `node_vms` table. -/
structure Vm where
  id : String
  node_id : String
  name : String
  state : String
  provider : String
  domain_name : String
  domain_uuid : Option String
  image_id : String
  vcpu : Int
  memory_mb : Int
  disk_gb : Int
  bridge : String
  ip_address : Option String
  last_error : Option String
  created_at : String
  updated_at : String
deriving Repr, DecidableEq

/-- A row of the `vm_operations` table.  `request` keeps the decoded
`request_json`; `result` keeps the decoded `result_json` (the details
dict, absent when NULL or when the details dict was empty). -/
structure Operation where
  id : String
  node_id : String
  vm_id : Option String
  operation_type : String
  status : String
  request : Option JVal
  result : Option JVal
  error : Option String
  created_at : String
  started_at : Option String
  ended_at : Option String
deriving Repr

/-- `db._node_vm_capability_ready`: `capabilities.vm.ready is True`. -/
def nodeVmCapabilityReady (row : NodeRow) : Bool :=
  match row.capabilities with
  | some caps =>
    match jget caps "vm" with
    | some vmCap =>
      if vmCap.isObj then
        match jget vmCap "ready" with
        | some (.bool true) => true
        | _ => false
      else false
    | none => false
  | none => false

/-- The ready-to-dispatch command returned by `db.queue_vm_action`. -/
structure VmActionCommand where
  command_type : String
  command_id : String
  operation_id : String
  vm_id : String
  created_at : String
  domain_name : String
deriving Repr, DecidableEq

inductive VmActionOutcome where
  | invalidAction : VmActionOutcome
  | notFound : VmActionOutcome
  | nodeNotPaired : VmActionOutcome
  | capabilityNotReady : VmActionOutcome
  | vmNotFound : VmActionOutcome
  | invalidState (error : String) : VmActionOutcome
  | ok (vm : Vm) (operation : Operation) (command : VmActionCommand) : VmActionOutcome
deriving Repr

/-- `db.queue_vm_action`.  `node?` and `vm?` are the row lookups, `opId`
stands for the fresh `uuid4` and `now` for `utc_now()`. -/
def queueVmAction (node? : Option NodeRow) (vm? : Option Vm) (action : String)
    (opId : String) (now : String) : VmActionOutcome :=
  let actionName := pyLower (pyStrip action)
  if ¬ (actionName = "start" ∨ actionName = "stop" ∨ actionName = "reboot" ∨
      actionName = "delete") then .invalidAction
  else
    match node? with
    | none => .notFound
    | some node =>
      if node.state ≠ "paired" then .nodeNotPaired
      else if ¬ nodeVmCapabilityReady node then .capabilityNotReady
      else
        match vm? with
        | none => .vmNotFound
        | some vm =>
          let currentState := vm.state
          if actionName = "start" ∧ currentState = "running" then
            .invalidState "vm is already running"
          else if actionName = "stop" ∧ currentState = "stopped" then
            .invalidState "vm is already stopped"
          else if actionName = "reboot" ∧
              ¬ (currentState = "running" ∨ currentState = "unknown") then
            .invalidState "vm must be running to reboot"
          else if currentState = "creating" ∨ currentState = "deleting" then
            .invalidState ("vm is currently " ++ currentState)
          else
            let nextState :=
              if actionName = "reboot" then "rebooting"
              else if actionName = "delete" then "deleting"
              else "unknown"
            let updatedVm := { vm with state := nextState, last_error := none, updated_at := now }
            let requestPayload : JVal := .obj
              [("action", .str actionName),
               ("domain_name", .str vm.domain_name),
               ("vm_id", .str vm.id)]
            let operation : Operation :=
              { id := opId, node_id := node.id, vm_id := some vm.id
                operation_type := actionName, status := "queued"
                request := some requestPayload, result := none, error := none
                created_at := now, started_at := none, ended_at := none }
            let command : VmActionCommand :=
              { command_type := "vm_" ++ actionName, command_id := opId
                operation_id := opId, vm_id := vm.id
                created_at := now, domain_name := vm.domain_name }
            .ok updatedVm operation command

/-- HTTP status chosen by `main._queue_vm_action_route` for each outcome. -/
def queueVmActionHttpCode : VmActionOutcome → Int
  | .notFound => 404
  | .vmNotFound => 404
  | .nodeNotPaired => 409
  | .capabilityNotReady => 409
  | .invalidState _ => 409
  | .invalidAction => 400
  | .ok _ _ _ => 202

/-- `db._derive_vm_state_from_power`. -/
def deriveVmStateFromPower (powerState : Option JVal) (fallback : String) : String :=
  match powerState with
  | some (.str s) =>
    let normalized := (pyLower (pyStrip s)).toList
    if containsSub normalized "running".toList then "running"
    else if containsSub normalized "shut".toList ∨
        containsSub normalized "stopped".toList ∨
        containsSub normalized "off".toList then "stopped"
    else fallback
  | _ => fallback

/-- Effect of a terminal command result on the VM row. -/
inductive VmEffect where
  | noVm : VmEffect
  | deleted : VmEffect
  | updated (vm : Vm) : VmEffect
deriving Repr

inductive ApplyResultOutcome where
  | notFound : ApplyResultOutcome
  | okRunning (operation : Operation) : ApplyResultOutcome
  | okTerminal (operation : Operation) (effect : VmEffect) : ApplyResultOutcome
deriving Repr

/-- The `details` dict of a command result (`none` for a missing or
non-dict value, as in the source). -/
def detailsTruthy : Option JVal → Bool
  | some (.obj fields) => ¬ fields.isEmpty
  | _ => false

/-- `db.apply_vm_command_result`.  `op?` is the operation lookup by
`(operation_id, node_id)`, `vm?` the `node_vms` lookup for the vm_id of
the operation, and `now` is `utc_now()`.  The row update applies the
reported status unconditionally: there is no guard on the stored status. -/
def applyVmCommandResult (op? : Option Operation) (vm? : Option Vm)
    (status : String) (message : String) (details : Option JVal)
    (now : String) : ApplyResultOutcome :=
  let cleanStatus := pyLower (pyStrip status)
  let cleanMessage := if pyStrip message = "" then "No details provided" else pyStrip message
  let detailsPayload : Option JVal :=
    match details with
    | some v => if v.isObj then some v else none
    | none => none
  match op? with
  | none => .notFound
  | some op =>
    if cleanStatus = "running" then
      .okRunning
        { op with status := "running", started_at := some (op.started_at.getD now) }
    else
      let finalStatus := if cleanStatus = "succeeded" then "succeeded" else "failed"
      let updatedOp : Operation :=
        { op with
          status := finalStatus
          started_at := some (op.started_at.getD now)
          ended_at := some now
          error := if finalStatus = "failed" then some cleanMessage else none
          result := if detailsTruthy detailsPayload then detailsPayload else none }
      let effect : VmEffect :=
        match op.vm_id, vm? with
        | some _, some vm =>
          if finalStatus = "failed" then
            .updated { vm with state := "error", last_error := some cleanMessage, updated_at := now }
          else if op.operation_type = "delete" then
            .deleted
          else
            let nextState :=
              if op.operation_type = "create" ∨ op.operation_type = "start" ∨
                  op.operation_type = "reboot" then
                deriveVmStateFromPower
                  (detailsPayload.bind (fun d => jget d "power_state"))
                  (if op.operation_type = "create" then "unknown" else "running")
              else if op.operation_type = "stop" then "stopped"
              else "unknown"
            let domainUuid :=
              match detailsPayload.bind (fun d => jget d "domain_uuid") with
              | some (.str s) => some s
              | _ => vm.domain_uuid
            let ipAddress :=
              match detailsPayload.bind (fun d => jget d "ip_address") with
              | some (.str s) => some s
              | _ => vm.ip_address
            .updated
              { vm with
                state := nextState, domain_uuid := domainUuid
                ip_address := ipAddress, last_error := none, updated_at := now }
        | _, _ => .noVm
      .okTerminal updatedOp effect

/-! ### Terminal size coercion (`main._coerce_terminal_size`, `main.ws_node_terminal`) -/

/-- Python `int(value)` on a JSON value: `bool` is a Python `int` subtype,
floats truncate toward zero, strings parse as decimal integers, anything
else raises (modelled as `none`). -/
def pyIntOfValue : Option JVal → Option Int
  | some (.int n) => some n
  | some (.bool b) => some (if b then 1 else 0)
  | some (.num q) => some (ratTruncate q)
  | some (.str s) => pyParseInt s
  | _ => none

/-- `main._coerce_terminal_size`: parse failures fall back to the default,
then a single clamp into `[minValue, maxValue]` is applied. -/
def coerceTerminalSize (value : Option JVal) (defaultValue minValue maxValue : Int) : Int :=
  let number := (pyIntOfValue value).getD defaultValue
  max minValue (min maxValue number)

/-- The `terminal_open` message that `main.ws_node_terminal` enqueues on the
ws_outbound buffer for the agent. -/
structure TerminalOpenMsg where
  msg_type : String
  session_id : String
  cols : Int
  rows : Int
deriving Repr, DecidableEq

/-- The size handling of `main.ws_node_terminal` (lines 940-958): the query
values are strings when present, and `(query.get("cols") or [80])[0]`
supplies the integer defaults when absent. -/
def wsNodeTerminalOpen (sessionId : String) (rawCols rawRows : Option String) : TerminalOpenMsg :=
  let colsValue : JVal := match rawCols with | some s => .str s | none => .int 80
  let rowsValue : JVal := match rawRows with | some s => .str s | none => .int 24
  { msg_type := "terminal_open"
    session_id := sessionId
    cols := coerceTerminalSize (some colsValue) 80 20 300
    rows := coerceTerminalSize (some rowsValue) 24 5 120 }

/-! ### Agent connection registry and supersession (`main.ws_agent`) -/

/-- The in-memory command-router maps guarded by `AGENT_COMMANDS_LOCK`:
`ACTIVE_AGENT_CONNECTIONS` and `AGENT_WS_OUTBOUND_MESSAGES` (a missing key
is the empty buffer). -/
structure RouterState where
  activeConnections : String → Option String
  wsOutbound : String → List JVal

/-- `main._activate_agent_connection`: returns the superseded connection id
and installs the new one. -/
def activateAgentConnection (nodeId connId : String) (s : RouterState) :
    Option String × RouterState :=
  (s.activeConnections nodeId,
   { s with activeConnections := fun k =>
      if k = nodeId then some connId else s.activeConnections k })

/-- `main._is_current_agent_connection`. -/
def isCurrentAgentConnection (nodeId connId : String) (s : RouterState) : Bool :=
  s.activeConnections nodeId = some connId

/-- `main._deactivate_agent_connection`: removes the entry only when it
still names this connection. -/
def deactivateAgentConnection (nodeId connId : String) (s : RouterState) :
    Bool × RouterState :=
  if s.activeConnections nodeId = some connId then
    (true,
     { s with activeConnections := fun k =>
        if k = nodeId then none else s.activeConnections k })
  else (false, s)

/-- `main._drain_agent_ws_messages`. -/
def drainAgentWsMessages (nodeId : String) (maxItems : Int) (s : RouterState) :
    List JVal × RouterState :=
  let messages := s.wsOutbound nodeId
  if messages.isEmpty then ([], s)
  else
    let take := (max 1 (min maxItems (messages.length : Int))).toNat
    (messages.take take,
     { s with wsOutbound := fun k =>
        if k = nodeId then messages.drop take else s.wsOutbound k })

/-- A registered `TERMINAL_SESSIONS` entry (only the fields the
supersession path reads). -/
structure TermSession where
  session_id : String
  node_id : String
deriving Repr, DecidableEq

/-- A synthetic event enqueued on a terminal session inbound queue. -/
structure TermErrorEvent where
  session_id : String
  error : String
deriving Repr, DecidableEq

/-- `main._close_terminal_sessions_for_node`: one synthetic
`terminal_error` per session of the node. -/
def closeTerminalSessionsForNode (sessions : List TermSession) (nodeId reason : String) :
    List TermErrorEvent :=
  (sessions.filter (fun t => t.node_id = nodeId)).map
    (fun t => { session_id := t.session_id, error := reason })

/-- What one iteration of the authenticated `ws_agent` writer loop does
before attempting a receive (lines 1247-1254): if the connection is no
longer current it sends one `superseded_connection` error frame and
breaks; otherwise it drains and sends up to 200 outbound messages. -/
inductive AgentLoopStep where
  | exitSuperseded (sentError : String) : AgentLoopStep
  | continues (sent : List JVal) (nextState : RouterState) : AgentLoopStep

def agentWriterIteration (s : RouterState) (nodeId connId : String) : AgentLoopStep :=
  if ¬ isCurrentAgentConnection nodeId connId s then
    .exitSuperseded "superseded_connection"
  else
    let (sent, s1) := drainAgentWsMessages nodeId 200 s
    .continues sent s1

/-- The `finally` block of `ws_agent` for an authenticated connection
(lines 1405-1418): deactivate, and only when the connection was still
current, clear the outbound buffer and close the terminal sessions of the
node with a synthetic error. -/
def agentFinally (s : RouterState) (sessions : List TermSession) (nodeId connId : String) :
    RouterState × List TermErrorEvent :=
  let (wasActive, s1) := deactivateAgentConnection nodeId connId s
  if wasActive then
    ({ s1 with wsOutbound := fun k => if k = nodeId then [] else s1.wsOutbound k },
     closeTerminalSessionsForNode sessions nodeId "Agent websocket disconnected")
  else (s1, [])

/-! ### Fire-and-forget terminal commands
(`queue_terminal_command`, `apply_terminal_command_result`,
`list_terminal_commands`) -/

/-- Modelled from the spec: `queue_terminal_command`,
`apply_terminal_command_result` and `list_terminal_commands` are imported
by `master/main.py` from `master.db`, but their definitions are not in the
provided `db.py`; per the spec they "mirror the VM pattern for
fire-and-forget shell execution".  A terminal-exec operation row, with the
same lifecycle fields as `vm_operations`. -/
structure TerminalOperation where
  id : String
  node_id : String
  command_text : String
  status : String
  result : Option JVal
  error : Option String
  created_at : String
  started_at : Option String
  ended_at : Option String
deriving Repr

/-- Modelled from the spec: the ready-to-dispatch `terminal_exec` command
returned by `queue_terminal_command`, mirroring the VM commands
(`command_id = operation_id`). -/
structure TerminalCommand where
  command_type : String
  command_id : String
  operation_id : String
  command_text : String
  created_at : String
deriving Repr, DecidableEq

inductive QueueTerminalOutcome where
  | notFound : QueueTerminalOutcome
  | nodeNotPaired : QueueTerminalOutcome
  | invalidPayload (error : String) : QueueTerminalOutcome
  | ok (operation : TerminalOperation) (command : TerminalCommand) : QueueTerminalOutcome
deriving Repr

/-- Modelled from the spec: `queue_terminal_command` queues a
`terminal_exec` Operation row and returns a ready-to-dispatch command; the
outcome tags are the ones `main.post_node_terminal_exec` dispatches on
(`not_found`, `node_not_paired`, `invalid_payload`, ok). -/
def queueTerminalCommand (node? : Option NodeRow) (commandText : String)
    (opId now : String) : QueueTerminalOutcome :=
  match node? with
  | none => .notFound
  | some node =>
    if node.state ≠ "paired" then .nodeNotPaired
    else if pyStrip commandText = "" then .invalidPayload "command is required"
    else
      .ok
        { id := opId, node_id := node.id, command_text := pyStrip commandText
          status := "queued", result := none, error := none
          created_at := now, started_at := none, ended_at := none }
        { command_type := "terminal_exec", command_id := opId
          operation_id := opId, command_text := pyStrip commandText, created_at := now }

inductive ApplyTerminalOutcome where
  | notFound : ApplyTerminalOutcome
  | okRunning (operation : TerminalOperation) : ApplyTerminalOutcome
  | okTerminal (operation : TerminalOperation) : ApplyTerminalOutcome
deriving Repr

/-- Modelled from the spec: `apply_terminal_command_result` applies
monotonic results exactly like `apply_vm_command_result` does for VM
operations (`running` fills `started_at` only when unset; terminal
statuses set `ended_at`, store the error on failure and the details on
success), without any VM row to reconcile. -/
def applyTerminalCommandResult (op? : Option TerminalOperation)
    (status message : String) (details : Option JVal) (now : String) : ApplyTerminalOutcome :=
  let cleanStatus := pyLower (pyStrip status)
  let cleanMessage := if pyStrip message = "" then "No details provided" else pyStrip message
  let detailsPayload : Option JVal :=
    match details with
    | some v => if v.isObj then some v else none
    | none => none
  match op? with
  | none => .notFound
  | some op =>
    if cleanStatus = "running" then
      .okRunning
        { op with status := "running", started_at := some (op.started_at.getD now) }
    else
      let finalStatus := if cleanStatus = "succeeded" then "succeeded" else "failed"
      .okTerminal
        { op with
          status := finalStatus
          started_at := some (op.started_at.getD now)
          ended_at := some now
          error := if finalStatus = "failed" then some cleanMessage else none
          result := if detailsTruthy detailsPayload then detailsPayload else none }

inductive ListTerminalResult where
  | notFound : ListTerminalResult
  | ok (items : List TerminalOperation) : ListTerminalResult
deriving Repr

/-- Modelled from the spec: `list_terminal_commands` returns the most
recent commands of the node (rows given most-recent-first, as
`list_vm_operations` orders by `created_at DESC`), bounded by the clamped
limit `main._coerce_vm_limit` also applies. -/
def listTerminalCommands (nodeExists : Bool) (ops : List TerminalOperation)
    (limit : Int) : ListTerminalResult :=
  if ¬ nodeExists then .notFound
  else .ok (ops.take (max 1 (min limit 200)).toNat)

/-- HTTP status chosen by `main.post_node_terminal_exec` for each store
outcome. -/
def postNodeTerminalExecHttpCode : QueueTerminalOutcome → Int
  | .notFound => 404
  | .nodeNotPaired => 409
  | .invalidPayload _ => 400
  | .ok _ _ => 202

/-! ### Outcome projections used by the theorems -/

/-- The operation row carried by an `apply_vm_command_result` outcome. -/
def ApplyResultOutcome.operationOut : ApplyResultOutcome → Option Operation
  | .notFound => none
  | .okRunning op => some op
  | .okTerminal op _ => some op

/-- Whether `queue_vm_action` accepted the request (inserted an Operation
and returned a command). -/
def VmActionOutcome.isAccepted : VmActionOutcome → Bool
  | .ok _ _ _ => true
  | _ => false

/-- The updated node row of a heartbeat outcome. -/
def HeartbeatOutcome.updatedRow : HeartbeatOutcome → Option NodeRow
  | .ok row => some row
  | _ => none

/-! ## Theorems -/

theorem mapClampPercent_bounds (o : Option ℚ) (q : ℚ)
    (h : o.map clampPercent = some q) : 0 ≤ q ∧ q ≤ 100 := by
  cases o with
  | none => exact absurd h (by simp)
  | some q0 =>
    have hq : clampPercent q0 = q := by simpa using h
    exact hq ▸ clampPercent_mem q0

theorem mapClampBytes_nonneg (o : Option Int) (n : Int)
    (h : o.map clampBytes = some n) : 0 ≤ n := by
  cases o with
  | none => exact absurd h (by simp)
  | some n0 =>
    have hn : clampBytes n0 = n := by simpa using h
    exact hn ▸ clampBytes_nonneg n0

/-- The usage payload of the C6 example scenario. -/
def cexUsage : JVal := .obj [("cpu_percent", .num 250), ("memory_percent", .int (-5)),
  ("memory_used_bytes", .int (-1))]

theorem cexUsage_normalized : normalizeRuntimeMetrics (some cexUsage) =
    some { cpu_percent := some 100, memory_percent := some 0, memory_used_bytes := some 0
           memory_total_bytes := none, storage_percent := none
           storage_used_bytes := none, storage_total_bytes := none } := by
  have hm : normalizeRuntimeMetrics (some cexUsage) =
      some { cpu_percent := some (clampPercent 250), memory_percent := some (clampPercent (-5))
             memory_used_bytes := some (clampBytes (-1)), memory_total_bytes := none
             storage_percent := none, storage_used_bytes := none
             storage_total_bytes := none } := rfl
  rw [hm]
  norm_num [clampPercent, clampBytes, pyRound2, roundHalfEven]

theorem normalizeRuntimeMetrics_fields (value : Option JVal) (m : RuntimeMetrics)
    (h : normalizeRuntimeMetrics value = some m) :
    ∃ v, value = some v ∧
      m.cpu_percent = (asFloat (jget v "cpu_percent")).map clampPercent ∧
      m.memory_percent = (asFloat (jget v "memory_percent")).map clampPercent ∧
      m.memory_used_bytes = (asInt (jget v "memory_used_bytes")).map clampBytes ∧
      m.memory_total_bytes = (asInt (jget v "memory_total_bytes")).map clampBytes ∧
      m.storage_percent = (asFloat (jget v "storage_percent")).map clampPercent ∧
      m.storage_used_bytes = (asInt (jget v "storage_used_bytes")).map clampBytes ∧
      m.storage_total_bytes = (asInt (jget v "storage_total_bytes")).map clampBytes := by
  cases value with
  | none => simp [normalizeRuntimeMetrics] at h
  | some v =>
    refine ⟨v, rfl, ?_⟩
    cases v with
    | obj fields =>
      simp only [normalizeRuntimeMetrics, JVal.isObj, if_true] at h
      split at h
      · exact absurd h (by simp)
      · cases h
        simp
    | null => simp [normalizeRuntimeMetrics, JVal.isObj] at h
    | bool b => simp [normalizeRuntimeMetrics, JVal.isObj] at h
    | int n => simp [normalizeRuntimeMetrics, JVal.isObj] at h
    | num q => simp [normalizeRuntimeMetrics, JVal.isObj] at h
    | str s => simp [normalizeRuntimeMetrics, JVal.isObj] at h
    | arr xs => simp [normalizeRuntimeMetrics, JVal.isObj] at h

/-- Claim C6: for every heartbeat payload, every percent field that the
normalised runtime metrics carry lies in [0, 100] and every byte-count
field is nonnegative; in particular an input of cpu_percent 250.0,
memory_percent -5 and memory_used_bytes -1 is stored as cpu_percent 100.0,
memory_percent 0.0 and memory_used_bytes 0. -/
theorem heartbeat_metrics_normalized_bounds (value : Option JVal) (m : RuntimeMetrics)
    (h : normalizeRuntimeMetrics value = some m) :
    ((∀ q, m.cpu_percent = some q → 0 ≤ q ∧ q ≤ 100) ∧
     (∀ q, m.memory_percent = some q → 0 ≤ q ∧ q ≤ 100) ∧
     (∀ q, m.storage_percent = some q → 0 ≤ q ∧ q ≤ 100) ∧
     (∀ n, m.memory_used_bytes = some n → 0 ≤ n) ∧
     (∀ n, m.memory_total_bytes = some n → 0 ≤ n) ∧
     (∀ n, m.storage_used_bytes = some n → 0 ≤ n) ∧
     (∀ n, m.storage_total_bytes = some n → 0 ≤ n)) ∧
    normalizeRuntimeMetrics (some cexUsage) =
      some { cpu_percent := some 100, memory_percent := some 0, memory_used_bytes := some 0
             memory_total_bytes := none, storage_percent := none
             storage_used_bytes := none, storage_total_bytes := none } := by
  obtain ⟨v, _, h1, h2, h3, h4, h5, h6, h7⟩ := normalizeRuntimeMetrics_fields value m h
  refine ⟨⟨?_, ?_, ?_, ?_, ?_, ?_, ?_⟩, cexUsage_normalized⟩
  · intro q hq; exact mapClampPercent_bounds _ q (h1 ▸ hq)
  · intro q hq; exact mapClampPercent_bounds _ q (h2 ▸ hq)
  · intro q hq; exact mapClampPercent_bounds _ q (h5 ▸ hq)
  · intro n hn; exact mapClampBytes_nonneg _ n (h3 ▸ hn)
  · intro n hn; exact mapClampBytes_nonneg _ n (h4 ▸ hn)
  · intro n hn; exact mapClampBytes_nonneg _ n (h6 ▸ hn)
  · intro n hn; exact mapClampBytes_nonneg _ n (h7 ▸ hn)

/-- Witness for C6 at a concrete heartbeat usage payload. -/
theorem heartbeat_metrics_normalized_bounds_witness :
    (0 : ℚ) ≤ 100 ∧ (100 : ℚ) ≤ 100 :=
  (heartbeat_metrics_normalized_bounds (some cexUsage)
    { cpu_percent := some 100, memory_percent := some 0, memory_used_bytes := some 0
      memory_total_bytes := none, storage_percent := none
      storage_used_bytes := none, storage_total_bytes := none }
    cexUsage_normalized).1.1 100 rfl

/-- Claim C3: for every existing node and limit clamped into [1, 500],
`list_node_logs` with `since_id = s` returns only entries with id strictly
greater than `s`, in ascending id order, at most the clamped limit of
them, as a prefix of the id-filtered log; without `since_id` it returns
the most recent clamped-limit entries in ascending order; and the HTTP
endpoint sets `next_since_id` to the id of the last returned item, or
echoes the since_id of the request when the result is empty. -/
theorem list_node_logs_pagination (logs : List LogEntry) (limit : Int) (s : Int)
    (hsorted : logs.Pairwise (fun a b => a.id < b.id)) :
    (1 ≤ clampLogsLimit limit ∧ clampLogsLimit limit ≤ 500) ∧
    (∀ items, listNodeLogs true logs limit (some s) = .ok items →
       (∀ e ∈ items, (e.id : Int) > s) ∧
       items.Pairwise (fun a b => a.id < b.id) ∧
       items.length ≤ (clampLogsLimit limit).toNat ∧
       items <+: logs.filter (fun e => (e.id : Int) > s)) ∧
    (∀ items, listNodeLogs true logs limit none = .ok items →
       items.Pairwise (fun a b => a.id < b.id) ∧
       items.length = min (clampLogsLimit limit).toNat logs.length ∧
       items <:+ logs) ∧
    (∀ limitRaw sinceIdRaw sinceId items next,
       parseSinceId sinceIdRaw = some sinceId →
       resolveLogsRequest true logs limitRaw sinceIdRaw = (.ok items next, 200) →
       (∀ e, items.getLast? = some e → next = some (e.id : Int)) ∧
       (items = [] → next = sinceId)) := by
  refine ⟨⟨le_max_left 1 _, max_le (by norm_num) (min_le_right limit 500)⟩, ?_, ?_, ?_⟩
  · intro items h
    have hitems : items = (logs.filter (fun e => (e.id : Int) > s)).take (clampLogsLimit limit).toNat := by
      simpa [listNodeLogs] using h.symm
    subst hitems
    refine ⟨?_, ?_, List.length_take_le _ _, List.take_prefix _ _⟩
    · intro e he
      have := List.mem_of_mem_take he
      simpa using List.of_mem_filter this
    · exact List.Pairwise.sublist
        ((List.take_sublist _ _).trans (List.filter_sublist _)) hsorted
  · intro items h
    have hitems : items = (logs.reverse.take (clampLogsLimit limit).toNat).reverse := by
      simpa [listNodeLogs] using h.symm
    subst hitems
    have hsuffix : (logs.reverse.take (clampLogsLimit limit).toNat).reverse <:+ logs := by
      have hp : logs.reverse.take (clampLogsLimit limit).toNat <+: logs.reverse :=
        List.take_prefix _ _
      have := List.reverse_suffix.mpr hp
      simpa using this
    refine ⟨List.Pairwise.sublist hsuffix.sublist hsorted, ?_, hsuffix⟩
    simp [List.length_take]
  · intro limitRaw sinceIdRaw sinceId items next hparse h
    unfold resolveLogsRequest at h
    cases hlim : pyParseInt (limitRaw.getD "200") with
    | none =>
      simp only [hlim] at h
      exact absurd h (by simp)
    | some limit2 =>
      simp only [hlim, hparse] at h
      cases hlist : listNodeLogs true logs limit2 sinceId with
      | notFound =>
        simp only [hlist, Prod.mk.injEq, LogsBody.ok.injEq] at h
        obtain ⟨⟨hi, hn⟩, -⟩ := h
        refine ⟨?_, fun _ => hn.symm⟩
        intro e he
        rw [← hi] at he
        simp at he
      | ok items2 =>
        simp only [hlist, Prod.mk.injEq, LogsBody.ok.injEq] at h
        obtain ⟨⟨hi, hn⟩, -⟩ := h
        subst hi
        refine ⟨?_, ?_⟩
        · intro e he
          simp only [he] at hn
          exact hn.symm
        · intro hempty
          subst hempty
          have hs : sinceId = next := by simpa using hn
          exact hs.symm

/-- The log rows of the C3 witness scenario. -/
def logA : LogEntry :=
  { id := 1, node_id := "n-1", created_at := "t1", level := "info", message := "m1", meta := none }

def logB : LogEntry :=
  { id := 2, node_id := "n-1", created_at := "t2", level := "info", message := "m2", meta := none }

def logC : LogEntry :=
  { id := 3, node_id := "n-1", created_at := "t3", level := "info", message := "m3", meta := none }

/-- Witness for C3 on a three-entry log with `since_id = 1`, `limit = 10`. -/
theorem list_node_logs_pagination_witness :
    ((∀ e ∈ [logB, logC], (e.id : Int) > 1) ∧
     ([logB, logC] : List LogEntry).Pairwise (fun a b => a.id < b.id) ∧
     ([logB, logC] : List LogEntry).length ≤ (clampLogsLimit 10).toNat ∧
     [logB, logC] <+: ([logA, logB, logC].filter (fun e => (e.id : Int) > 1))) ∧
    (∀ e, ([logB, logC] : List LogEntry).getLast? = some e →
       (some 3 : Option Int) = some (e.id : Int)) ∧
    (([logB, logC] : List LogEntry) = [] → (some 3 : Option Int) = some 1) :=
  ⟨(list_node_logs_pagination [logA, logB, logC] 10 1 (by decide)).2.1 [logB, logC] rfl,
   (list_node_logs_pagination [logA, logB, logC] 10 1 (by decide)).2.2.2
     none (some "1") (some 1) [logB, logC] (some 3) rfl rfl⟩

/-- Claim C10 counterexample: a GET logs request naming a nonexistent node
whose `limit` parameter is not an integer is answered 400, not with the
claimed 200 empty-items body. -/
theorem logs_missing_node_counterexample :
    resolveLogsRequest false [] (some "abc") none = (.err "limit must be an integer", 400) ∧
    (400 : Int) ≠ 200 :=
  ⟨rfl, by decide⟩

/-- Claim C10 (amended): for every GET logs request naming a nonexistent
node whose `limit` and `since_id` parameters parse as integers (or are
absent), the endpoint responds 200 with empty items and `next_since_id`
echoing the since_id of the request, even though `list_node_logs` reports
`not_found`. -/
theorem logs_missing_node_empty_ok (logs : List LogEntry)
    (limitRaw sinceIdRaw : Option String) (limit : Int) (sinceId : Option Int)
    (hlim : pyParseInt (limitRaw.getD "200") = some limit)
    (hsince : parseSinceId sinceIdRaw = some sinceId) :
    resolveLogsRequest false logs limitRaw sinceIdRaw = (.ok [] sinceId, 200) := by
  unfold resolveLogsRequest
  simp [hlim, hsince, listNodeLogs]

/-- Witness for C10 at a request with `since_id = 7` and no limit. -/
theorem logs_missing_node_empty_ok_witness :
    resolveLogsRequest false [] none (some "7") = (.ok [] (some 7), 200) :=
  logs_missing_node_empty_ok [] none (some "7") 200 (some 7) rfl rfl

/-! ### C4: the vm action state machine -/

/-- A paired node whose vm capability is ready. -/
def readyNode : NodeRow :=
  { id := "n-1", name := "node-1", pair_code := "ABC123", state := "paired"
    pair_token := some "tok", created_at := "t0", paired_at := some "t0"
    last_heartbeat_at := none, agent_hostname := none, agent_info := none
    agent_commit := none, runtime_metrics := none
    capabilities := some (.obj [("vm", .obj [("ready", .bool true)])]) }

/-- A vm of that node in state `unknown`. -/
def unknownVm : Vm :=
  { id := "vm-1", node_id := "n-1", name := "db-1", state := "unknown"
    provider := "libvirt", domain_name := "lattice-abc", domain_uuid := none
    image_id := "ubuntu-24-04", vcpu := 2, memory_mb := 2048, disk_gb := 20
    bridge := "br0", ip_address := none, last_error := none
    created_at := "t0", updated_at := "t0" }

/-- The same vm in state `running`. -/
def runningVm : Vm := { unknownVm with state := "running" }

/-- Claim C4 counterexample: a reboot of a vm whose state is `unknown`
(not `running`) is accepted by `queue_vm_action`, contradicting the claim
that reboot is rejected when the vm is not running. -/
theorem queue_vm_action_reboot_unknown_counterexample :
    unknownVm.state = "unknown" ∧ unknownVm.state ≠ "running" ∧
    (queueVmAction (some readyNode) (some unknownVm) "reboot" "op-1" "t1").isAccepted = true :=
  ⟨rfl, by decide, rfl⟩

theorem canonStart : pyLower (pyStrip "start") = "start" := rfl

theorem canonStop : pyLower (pyStrip "stop") = "stop" := rfl

theorem canonReboot : pyLower (pyStrip "reboot") = "reboot" := rfl

theorem canonDelete : pyLower (pyStrip "delete") = "delete" := rfl

/-- Claim C4 (amended): `queue_vm_action` enforces the preconditions with
reboot allowed from `running` or `unknown` (not only `running`): start is
rejected on a running vm, stop on a stopped vm, reboot on a vm that is
neither running nor unknown, and every action on a creating or deleting vm
— each with an `invalid_state` outcome and no Operation; on acceptance the
vm state is set speculatively (start→unknown, stop→unknown,
reboot→rebooting, delete→deleting) and exactly one queued Operation plus a
`vm_<action>` command with `command_id = operation_id`, the vm_id and the
domain_name are returned. -/
theorem queue_vm_action_state_machine (node : NodeRow) (vm : Vm) (opId now : String)
    (hpaired : node.state = "paired") (hready : nodeVmCapabilityReady node = true) :
    (vm.state = "running" →
       queueVmAction (some node) (some vm) "start" opId now =
         .invalidState "vm is already running") ∧
    (vm.state = "stopped" →
       queueVmAction (some node) (some vm) "stop" opId now =
         .invalidState "vm is already stopped") ∧
    (vm.state ≠ "running" → vm.state ≠ "unknown" →
       queueVmAction (some node) (some vm) "reboot" opId now =
         .invalidState "vm must be running to reboot") ∧
    (∀ a ∈ (["start", "stop", "reboot", "delete"] : List String),
       vm.state = "creating" ∨ vm.state = "deleting" →
       ∃ e, queueVmAction (some node) (some vm) a opId now = .invalidState e) ∧
    (vm.state ≠ "running" → vm.state ≠ "creating" → vm.state ≠ "deleting" →
       queueVmAction (some node) (some vm) "start" opId now =
         .ok { vm with state := "unknown", last_error := none, updated_at := now }
           { id := opId, node_id := node.id, vm_id := some vm.id
             operation_type := "start", status := "queued"
             request := some (.obj [("action", .str "start"),
               ("domain_name", .str vm.domain_name), ("vm_id", .str vm.id)])
             result := none, error := none
             created_at := now, started_at := none, ended_at := none }
           { command_type := "vm_start", command_id := opId, operation_id := opId
             vm_id := vm.id, created_at := now, domain_name := vm.domain_name }) ∧
    (vm.state ≠ "stopped" → vm.state ≠ "creating" → vm.state ≠ "deleting" →
       queueVmAction (some node) (some vm) "stop" opId now =
         .ok { vm with state := "unknown", last_error := none, updated_at := now }
           { id := opId, node_id := node.id, vm_id := some vm.id
             operation_type := "stop", status := "queued"
             request := some (.obj [("action", .str "stop"),
               ("domain_name", .str vm.domain_name), ("vm_id", .str vm.id)])
             result := none, error := none
             created_at := now, started_at := none, ended_at := none }
           { command_type := "vm_stop", command_id := opId, operation_id := opId
             vm_id := vm.id, created_at := now, domain_name := vm.domain_name }) ∧
    (vm.state = "running" ∨ vm.state = "unknown" →
       queueVmAction (some node) (some vm) "reboot" opId now =
         .ok { vm with state := "rebooting", last_error := none, updated_at := now }
           { id := opId, node_id := node.id, vm_id := some vm.id
             operation_type := "reboot", status := "queued"
             request := some (.obj [("action", .str "reboot"),
               ("domain_name", .str vm.domain_name), ("vm_id", .str vm.id)])
             result := none, error := none
             created_at := now, started_at := none, ended_at := none }
           { command_type := "vm_reboot", command_id := opId, operation_id := opId
             vm_id := vm.id, created_at := now, domain_name := vm.domain_name }) ∧
    (vm.state ≠ "creating" → vm.state ≠ "deleting" →
       queueVmAction (some node) (some vm) "delete" opId now =
         .ok { vm with state := "deleting", last_error := none, updated_at := now }
           { id := opId, node_id := node.id, vm_id := some vm.id
             operation_type := "delete", status := "queued"
             request := some (.obj [("action", .str "delete"),
               ("domain_name", .str vm.domain_name), ("vm_id", .str vm.id)])
             result := none, error := none
             created_at := now, started_at := none, ended_at := none }
           { command_type := "vm_delete", command_id := opId, operation_id := opId
             vm_id := vm.id, created_at := now, domain_name := vm.domain_name }) := by
  refine ⟨?_, ?_, ?_, ?_, ?_, ?_, ?_, ?_⟩
  · intro h
    simp [queueVmAction, canonStart, canonStop, canonReboot, canonDelete, hpaired, hready, h]
  · intro h
    simp [queueVmAction, canonStart, canonStop, canonReboot, canonDelete, hpaired, hready, h]
  · intro h1 h2
    simp [queueVmAction, canonStart, canonStop, canonReboot, canonDelete, hpaired, hready, h1, h2]
  · intro a ha hcd
    fin_cases ha
    · rcases hcd with h | h
      · exact ⟨"vm is currently creating",
          by simp [queueVmAction, canonStart, canonStop, canonReboot, canonDelete, hpaired, hready, h]⟩
      · exact ⟨"vm is currently deleting",
          by simp [queueVmAction, canonStart, canonStop, canonReboot, canonDelete, hpaired, hready, h]⟩
    · rcases hcd with h | h
      · exact ⟨"vm is currently creating",
          by simp [queueVmAction, canonStart, canonStop, canonReboot, canonDelete, hpaired, hready, h]⟩
      · exact ⟨"vm is currently deleting",
          by simp [queueVmAction, canonStart, canonStop, canonReboot, canonDelete, hpaired, hready, h]⟩
    · rcases hcd with h | h
      · exact ⟨"vm must be running to reboot",
          by simp [queueVmAction, canonStart, canonStop, canonReboot, canonDelete, hpaired, hready, h]⟩
      · exact ⟨"vm must be running to reboot",
          by simp [queueVmAction, canonStart, canonStop, canonReboot, canonDelete, hpaired, hready, h]⟩
    · rcases hcd with h | h
      · exact ⟨"vm is currently creating",
          by simp [queueVmAction, canonStart, canonStop, canonReboot, canonDelete, hpaired, hready, h]⟩
      · exact ⟨"vm is currently deleting",
          by simp [queueVmAction, canonStart, canonStop, canonReboot, canonDelete, hpaired, hready, h]⟩
  · intro h1 h2 h3
    simp [queueVmAction, canonStart, canonStop, canonReboot, canonDelete, hpaired, hready, h1, h2, h3]
  · intro h1 h2 h3
    simp [queueVmAction, canonStart, canonStop, canonReboot, canonDelete, hpaired, hready, h1, h2, h3]
  · intro h
    rcases h with h | h <;> simp [queueVmAction, canonStart, canonStop, canonReboot, canonDelete, hpaired, hready, h]
  · intro h1 h2
    by_cases hr : vm.state = "running"
    · simp [queueVmAction, canonStart, canonStop, canonReboot, canonDelete, hpaired, hready, hr]
    · by_cases hs : vm.state = "stopped"
      · simp [queueVmAction, canonStart, canonStop, canonReboot, canonDelete, hpaired, hready, hs]
      · simp [queueVmAction, canonStart, canonStop, canonReboot, canonDelete, hpaired, hready, hr, hs, h1, h2]

/-- Witness for C4: starting an already running vm is rejected with the
exact error body, and deleting an unknown-state vm is accepted. -/
theorem queue_vm_action_state_machine_witness :
    queueVmAction (some readyNode) (some runningVm) "start" "op-1" "t1" =
      .invalidState "vm is already running" ∧
    queueVmAction (some readyNode) (some unknownVm) "delete" "op-2" "t2" =
      .ok { unknownVm with state := "deleting", last_error := none, updated_at := "t2" }
        { id := "op-2", node_id := readyNode.id, vm_id := some unknownVm.id
          operation_type := "delete", status := "queued"
          request := some (.obj [("action", .str "delete"),
            ("domain_name", .str unknownVm.domain_name), ("vm_id", .str unknownVm.id)])
          result := none, error := none
          created_at := "t2", started_at := none, ended_at := none }
        { command_type := "vm_delete", command_id := "op-2", operation_id := "op-2"
          vm_id := unknownVm.id, created_at := "t2", domain_name := unknownVm.domain_name } :=
  ⟨(queue_vm_action_state_machine readyNode runningVm "op-1" "t1" rfl rfl).1 rfl,
   (queue_vm_action_state_machine readyNode unknownVm "op-2" "t2" rfl rfl).2.2.2.2.2.2.2
     (by decide) (by decide)⟩

/-! ### C1: monotonicity of operation results -/

/-- A queued operation with no vm attached (a `sync`). -/
def cexOpQueued : Operation :=
  { id := "op-1", node_id := "n-1", vm_id := none, operation_type := "sync"
    status := "queued", request := none, result := none, error := none
    created_at := "t0", started_at := none, ended_at := none }

/-- The same operation after a `succeeded` result applied at `t1`. -/
def cexOpSucceeded : Operation :=
  { cexOpQueued with status := "succeeded", started_at := some "t1", ended_at := some "t1" }

/-- Claim C1 counterexample: `apply_vm_command_result` has no guard on the
stored status, so a `running` result delivered after a terminal result
moves the operation from `succeeded` back to `running`, and re-delivering
the terminal result overwrites `ended_at` with the new time. -/
theorem apply_vm_result_terminal_regression_counterexample :
    applyVmCommandResult (some cexOpQueued) none "succeeded" "done" none "t1" =
      .okTerminal cexOpSucceeded .noVm ∧
    applyVmCommandResult (some cexOpSucceeded) none "running" "late frame" none "t2" =
      .okRunning { cexOpSucceeded with status := "running" } ∧
    applyVmCommandResult (some cexOpSucceeded) none "succeeded" "done" none "t2" =
      .okTerminal { cexOpSucceeded with ended_at := some "t2" } .noVm ∧
    ("running" : String) ≠ "succeeded" ∧ (some "t2" : Option String) ≠ some "t1" :=
  ⟨rfl, rfl, rfl, by decide, by decide⟩

/-- Claim C1 (amended): `apply_vm_command_result` applies the reported
status unconditionally — a `running` result always sets the status to
`running` (even on a terminal operation) while leaving `started_at` (once
set), `ended_at`, `error` and `result` unchanged; a terminal result always
sets `ended_at` to the current time, so re-delivery of the same terminal
result keeps the same terminal status value (the status passes through
`running` to terminal at most once per delivered `running` result) but
refreshes `ended_at`; and every operation written with a terminal status
has both `started_at` and `ended_at` set. -/
theorem apply_vm_result_monotonic_fields (op : Operation) (vm? : Option Vm)
    (st msg : String) (details : Option JVal) (now : String) :
    (∀ op2, (applyVmCommandResult (some op) vm? st msg details now).operationOut = some op2 →
       (∀ s0, op.started_at = some s0 → op2.started_at = some s0) ∧
       op2.started_at.isSome = true) ∧
    (∀ op2 eff, applyVmCommandResult (some op) vm? st msg details now = .okTerminal op2 eff →
       op2.started_at.isSome = true ∧ op2.ended_at = some now ∧
       (op2.status = "succeeded" ∨ op2.status = "failed") ∧
       (op2.status = "succeeded" ↔ pyLower (pyStrip st) = "succeeded")) ∧
    (∀ op2, applyVmCommandResult (some op) vm? st msg details now = .okRunning op2 →
       op2.status = "running" ∧ op2.ended_at = op.ended_at ∧
       op2.result = op.result ∧ op2.error = op.error) ∧
    (∀ op1 e1 op2 e2 now2,
       applyVmCommandResult (some op) vm? st msg details now = .okTerminal op1 e1 →
       applyVmCommandResult (some op1) vm? st msg details now2 = .okTerminal op2 e2 →
       op2.status = op1.status) := by
  by_cases hrun : pyLower (pyStrip st) = "running"
  · refine ⟨?_, ?_, ?_, ?_⟩
    · intro op2 h
      simp only [applyVmCommandResult, hrun, if_true, reduceIte,
        ApplyResultOutcome.operationOut, Option.some.injEq] at h
      subst h
      refine ⟨?_, rfl⟩
      intro s0 hs0
      simp [hs0]
    · intro op2 eff h
      simp [applyVmCommandResult, hrun] at h
    · intro op2 h
      simp only [applyVmCommandResult, hrun, reduceIte, ApplyResultOutcome.okRunning.injEq] at h
      subst h
      exact ⟨rfl, rfl, rfl, rfl⟩
    · intro op1 e1 op2 e2 now2 h1 h2
      simp [applyVmCommandResult, hrun] at h1
  · refine ⟨?_, ?_, ?_, ?_⟩
    · intro op2 h
      simp only [applyVmCommandResult, hrun, reduceIte,
        ApplyResultOutcome.operationOut, Option.some.injEq] at h
      subst h
      refine ⟨?_, rfl⟩
      intro s0 hs0
      simp [hs0]
    · intro op2 eff h
      simp only [applyVmCommandResult, hrun, reduceIte,
        ApplyResultOutcome.okTerminal.injEq] at h
      obtain ⟨h1, -⟩ := h
      subst h1
      refine ⟨rfl, rfl, ?_, ?_⟩
      · by_cases hs : pyLower (pyStrip st) = "succeeded"
        · exact Or.inl (by simp [hs])
        · exact Or.inr (by simp [hs])
      · by_cases hs : pyLower (pyStrip st) = "succeeded"
        · simp [hs]
        · simp [hs]
    · intro op2 h
      simp [applyVmCommandResult, hrun] at h
    · intro op1 e1 op2 e2 now2 h1 h2
      simp only [applyVmCommandResult, hrun, reduceIte,
        ApplyResultOutcome.okTerminal.injEq] at h1 h2
      obtain ⟨h1a, -⟩ := h1
      obtain ⟨h2a, -⟩ := h2
      subst h1a
      subst h2a
      rfl

/-- Witness for C1 applied to the concrete succeeded `sync` operation. -/
theorem apply_vm_result_monotonic_fields_witness :
    cexOpSucceeded.started_at.isSome = true ∧ cexOpSucceeded.ended_at = some "t1" ∧
    (cexOpSucceeded.status = "succeeded" ∨ cexOpSucceeded.status = "failed") ∧
    (cexOpSucceeded.status = "succeeded" ↔ pyLower (pyStrip "succeeded") = "succeeded") :=
  (apply_vm_result_monotonic_fields cexOpQueued none "succeeded" "done" none "t1").2.1
    cexOpSucceeded .noVm rfl

/-! ### C9: frame conditions of record_heartbeat -/

/-- A paired node with every optional column populated, so that the frame
conditions are visible. -/
def hbNode : NodeRow :=
  { id := "n-1", name := "node-1", pair_code := "ABC123", state := "paired"
    pair_token := some "tok-1", created_at := "t0", paired_at := some "t0"
    last_heartbeat_at := some "t0", agent_hostname := some (.str "h1")
    agent_info := some (.obj []), agent_commit := some "c0"
    runtime_metrics := none, capabilities := none }

/-- Claim C9 counterexample: the payload timestamp is stored verbatim
whenever it is a string, even when it is not a well-formed time value —
`record_heartbeat` only checks `isinstance(timestamp, str)`. -/
theorem record_heartbeat_timestamp_counterexample :
    (recordHeartbeat "tok-1" (some hbNode) "n-1"
        (some (.obj [("timestamp", .str "not-a-timestamp")]))
        "2025-06-01T00:00:00+00:00").updatedRow.map (fun r => r.last_heartbeat_at) =
      some (some "not-a-timestamp") ∧
    ("not-a-timestamp" : String) ≠ "2025-06-01T00:00:00+00:00" :=
  ⟨rfl, by decide⟩

/-- Claim C9 (amended): a successful `record_heartbeat` sets
`last_heartbeat_at` to the payload timestamp whenever that timestamp is a
string (well-formed or not) and to the server time otherwise; it leaves
the stored runtime metrics, agent_commit and capabilities unchanged
(COALESCE) whenever `extra.usage`, `extra.git_commit` and `extra.vm` are
absent; and it modifies no other node column. -/
theorem record_heartbeat_update (token : String) (row : NodeRow) (nodeId : String)
    (payload : Option JVal) (now : String) (upd : NodeRow)
    (h : recordHeartbeat token (some row) nodeId payload now = .ok upd) :
    upd.id = row.id ∧ upd.name = row.name ∧ upd.pair_code = row.pair_code ∧
    upd.state = row.state ∧ upd.pair_token = row.pair_token ∧
    upd.created_at = row.created_at ∧ upd.paired_at = row.paired_at ∧
    upd.agent_hostname = row.agent_hostname ∧ upd.agent_info = row.agent_info ∧
    upd.last_heartbeat_at = some (heartbeatTimestamp (payload.getD (.obj [])) now) ∧
    (∀ s, jget (payload.getD (.obj [])) "timestamp" = some (.str s) →
       upd.last_heartbeat_at = some s) ∧
    ((∀ s, jget (payload.getD (.obj [])) "timestamp" ≠ some (.str s)) →
       upd.last_heartbeat_at = some now) ∧
    (heartbeatUsage (payload.getD (.obj [])) = none →
       upd.runtime_metrics = row.runtime_metrics) ∧
    ((heartbeatExtra (payload.getD (.obj []))).bind (fun e => jget e "git_commit") = none →
       upd.agent_commit = row.agent_commit) ∧
    ((heartbeatExtra (payload.getD (.obj []))).bind (fun e => jget e "vm") = none →
       upd.capabilities = row.capabilities) := by
  by_cases h1 : pyStrip token = ""
  · simp [recordHeartbeat, h1] at h
  · by_cases h2 : row.id = pyStrip nodeId
    · simp only [recordHeartbeat, h1, h2, ne_eq, not_true_eq_false, if_false,
        reduceIte, HeartbeatOutcome.ok.injEq] at h
      subst h
      refine ⟨h2.symm, rfl, rfl, rfl, rfl, rfl, rfl, rfl, rfl, rfl, ?_, ?_, ?_, ?_, ?_⟩
      · intro s hs
        simp [heartbeatTimestamp, hs]
      · intro hns
        cases hts : jget (payload.getD (.obj [])) "timestamp" with
        | none => simp [heartbeatTimestamp, hts]
        | some v =>
          cases v with
          | str s => exact absurd hts (hns s)
          | null => simp [heartbeatTimestamp, hts]
          | bool b => simp [heartbeatTimestamp, hts]
          | int n => simp [heartbeatTimestamp, hts]
          | num q => simp [heartbeatTimestamp, hts]
          | arr xs => simp [heartbeatTimestamp, hts]
          | obj fields => simp [heartbeatTimestamp, hts]
      · intro hu
        simp [hu, normalizeRuntimeMetrics, Option.or]
      · intro hc
        simp [heartbeatCommit, hc, Option.or]
      · intro hv
        simp [heartbeatVmCapability, hv, Option.or]
    · simp [recordHeartbeat, h1, h2] at h

/-- Witness for C9 on a heartbeat with a non-string timestamp and no
extra dict. -/
theorem record_heartbeat_update_witness :
    (∃ upd, recordHeartbeat "tok-1" (some hbNode) "n-1"
        (some (.obj [("timestamp", .int 5)])) "2025-06-01T00:00:00+00:00" = .ok upd ∧
      upd.pair_token = hbNode.pair_token ∧
      upd.last_heartbeat_at = some "2025-06-01T00:00:00+00:00" ∧
      upd.runtime_metrics = hbNode.runtime_metrics ∧
      upd.agent_commit = hbNode.agent_commit ∧
      upd.capabilities = hbNode.capabilities) := by
  refine ⟨{ hbNode with last_heartbeat_at := some "2025-06-01T00:00:00+00:00" }, rfl, ?_⟩
  have h := record_heartbeat_update "tok-1" hbNode "n-1"
    (some (.obj [("timestamp", .int 5)])) "2025-06-01T00:00:00+00:00"
    { hbNode with last_heartbeat_at := some "2025-06-01T00:00:00+00:00" } rfl
  exact ⟨h.2.2.2.2.1,
    h.2.2.2.2.2.2.2.2.2.2.2.1 (fun s hs => by simp [jget] at hs),
    h.2.2.2.2.2.2.2.2.2.2.2.2.1 rfl,
    h.2.2.2.2.2.2.2.2.2.2.2.2.2.1 rfl,
    h.2.2.2.2.2.2.2.2.2.2.2.2.2.2 rfl⟩

/-! ### C5: one-way pairing -/

/-- Claim C5: `pair_node` succeeds only from state `pending`, issuing the
fresh token exactly at that transition; any later call with the same (by
then paired) code returns `already_paired`, mapped to HTTP 409, and every
node-mutating store operation embedded here preserves a paired state and
its token — delete and recreate is the only reset. -/
theorem pair_node_one_way (code : String) (row : NodeRow) (info : Option JVal)
    (tok now : String) :
    (∀ upd resp, pairNode code (some row) info tok now = .paired upd resp →
       row.state = "pending" ∧ upd.state = "paired" ∧ upd.pair_token = some tok ∧
       upd.paired_at = some now ∧ resp.pair_token = tok ∧ resp.state = "paired" ∧
       resp.node_id = row.id) ∧
    (isValidPairCode code = true → row.state ≠ "pending" →
       pairNode code (some row) info tok now = .alreadyPaired) ∧
    postPairHttpCode .alreadyPaired = 409 ∧
    (∀ op : NodeStoreOp, row.state = "paired" →
       (applyNodeOp row op).state = "paired" ∧
       (applyNodeOp row op).pair_token = row.pair_token) := by
  refine ⟨?_, ?_, rfl, ?_⟩
  · intro upd resp h
    by_cases hv : isValidPairCode code
    · by_cases hp : row.state = "pending"
      · simp only [pairNode, hv, not_true_eq_false, if_false, reduceIte, hp,
          ne_eq, not_false_eq_true, PairOutcome.paired.injEq] at h
        obtain ⟨hu, hr⟩ := h
        subst hu
        subst hr
        exact ⟨hp, rfl, rfl, rfl, rfl, rfl, rfl⟩
      · simp [pairNode, hv, hp] at h
    · simp [pairNode, hv] at h
  · intro hv hp
    simp [pairNode, hv, hp]
  · intro op hpaired
    cases op with
    | pair c i t n =>
      have hout : applyNodeOp row (.pair c i t n) = row := by
        by_cases hv : isValidPairCode c
        · simp [applyNodeOp, pairNode, hv, hpaired]
        · simp [applyNodeOp, pairNode, hv]
      rw [hout]
      exact ⟨hpaired, rfl⟩
    | heartbeat t nid p n =>
      by_cases h1 : pyStrip t = ""
      · rw [show applyNodeOp row (.heartbeat t nid p n) = row from by
          simp [applyNodeOp, recordHeartbeat, h1]]
        exact ⟨hpaired, rfl⟩
      · by_cases h2 : row.id = pyStrip nid
        · constructor
          · simp only [applyNodeOp, recordHeartbeat, h1, h2, ne_eq, not_true_eq_false,
              if_false, reduceIte]
            exact hpaired
          · simp only [applyNodeOp, recordHeartbeat, h1, h2, ne_eq, not_true_eq_false,
              if_false, reduceIte]
        · rw [show applyNodeOp row (.heartbeat t nid p n) = row from by
            simp [applyNodeOp, recordHeartbeat, h1, h2]]
          exact ⟨hpaired, rfl⟩
    | rename nid nm =>
      by_cases h1 : pyStrip nid = ""
      · rw [show applyNodeOp row (.rename nid nm) = row from by
          simp [applyNodeOp, renameNode, h1]]
        exact ⟨hpaired, rfl⟩
      · by_cases h2 : pyStrip nm = ""
        · rw [show applyNodeOp row (.rename nid nm) = row from by
            simp [applyNodeOp, renameNode, h1, h2]]
          exact ⟨hpaired, rfl⟩
        · by_cases h3 : row.name = pyStrip nm
          · rw [show applyNodeOp row (.rename nid nm) = row from by
              simp [applyNodeOp, renameNode, h1, h2, h3]]
            exact ⟨hpaired, rfl⟩
          · constructor
            · simp only [applyNodeOp, renameNode, h1, h2, h3, ne_eq, not_false_eq_true,
                if_false, reduceIte]
              exact hpaired
            · simp only [applyNodeOp, renameNode, h1, h2, h3, ne_eq, not_false_eq_true,
                if_false, reduceIte]

/-- A pending node holding the pair code of the C5 scenario. -/
def pendingNode : NodeRow :=
  { id := "n-2", name := "node-2", pair_code := "K7Q2JM", state := "pending"
    pair_token := none, created_at := "t0", paired_at := none
    last_heartbeat_at := none, agent_hostname := none, agent_info := none
    agent_commit := none, runtime_metrics := none, capabilities := none }

/-- The node after pairing in the C5 scenario. -/
def pairedNode : NodeRow :=
  { pendingNode with
    state := "paired"
    pair_token := some "token-1"
    paired_at := some "t1"
    agent_info := some (.obj []) }

/-- Witness for C5: the concrete pairing scenario with code `K7Q2JM`, and
the repeated call on the already paired row. -/
theorem pair_node_one_way_witness :
    (pendingNode.state = "pending" ∧ pairedNode.state = "paired" ∧
     pairedNode.pair_token = some "token-1" ∧ pairedNode.paired_at = some "t1" ∧
     ("token-1" : String) = "token-1" ∧ ("paired" : String) = "paired" ∧
     ("n-2" : String) = pendingNode.id) ∧
    pairNode "K7Q2JM" (some pairedNode) none "token-2" "t2" = .alreadyPaired := by
  constructor
  · have h := (pair_node_one_way "K7Q2JM" pendingNode none "token-1" "t1").1
      pairedNode { node_id := "n-2", node_name := "node-2"
                   pair_token := "token-1", state := "paired" } rfl
    exact ⟨h.1, h.2.1, h.2.2.1, h.2.2.2.1, rfl, rfl, rfl⟩
  · exact (pair_node_one_way "K7Q2JM" pairedNode none "token-2" "t2").2.1
      (by decide) (by decide)

/-! ### C7: terminal size clamping -/

theorem coerceTerminalSize_mem (value : Option JVal) (d lo hi : Int)
    (h1 : lo ≤ d) (h2 : d ≤ hi) :
    lo ≤ coerceTerminalSize value d lo hi ∧ coerceTerminalSize value d lo hi ≤ hi := by
  unfold coerceTerminalSize
  exact ⟨le_max_left lo _, max_le (h1.trans h2) (min_le_left hi _)⟩

/-- Claim C7 counterexample: a requested cols of 500 is clamped to the
range bound 300, not to the default 80 as the claim states. -/
theorem coerce_terminal_size_counterexample :
    (wsNodeTerminalOpen "sess-1" (some "500") none).cols = 300 ∧ (300 : Int) ≠ 80 :=
  ⟨rfl, by decide⟩

/-- Claim C7 (amended): the requested cols and rows are validated against
cols ∈ [20, 300] and rows ∈ [5, 120]; a value that does not parse as an
integer falls back to the default (80 or 24), an in-range value is kept,
and an out-of-range value is clamped to the nearer range bound (not to
the default) before the `terminal_open` message is enqueued. -/
theorem terminal_size_validation (value : Option JVal) (d lo hi : Int)
    (h1 : lo ≤ d) (h2 : d ≤ hi) :
    (lo ≤ coerceTerminalSize value d lo hi ∧ coerceTerminalSize value d lo hi ≤ hi) ∧
    (pyIntOfValue value = none → coerceTerminalSize value d lo hi = d) ∧
    (∀ n, pyIntOfValue value = some n → lo ≤ n → n ≤ hi →
       coerceTerminalSize value d lo hi = n) ∧
    (∀ n, pyIntOfValue value = some n → hi < n → coerceTerminalSize value d lo hi = hi) ∧
    (∀ n, pyIntOfValue value = some n → n < lo → coerceTerminalSize value d lo hi = lo) ∧
    (∀ sid rawCols rawRows,
       (wsNodeTerminalOpen sid rawCols rawRows).msg_type = "terminal_open" ∧
       20 ≤ (wsNodeTerminalOpen sid rawCols rawRows).cols ∧
       (wsNodeTerminalOpen sid rawCols rawRows).cols ≤ 300 ∧
       5 ≤ (wsNodeTerminalOpen sid rawCols rawRows).rows ∧
       (wsNodeTerminalOpen sid rawCols rawRows).rows ≤ 120) := by
  refine ⟨coerceTerminalSize_mem value d lo hi h1 h2, ?_, ?_, ?_, ?_, ?_⟩
  · intro hn
    unfold coerceTerminalSize
    rw [hn]
    simp only [Option.getD_none]
    rw [min_eq_right h2, max_eq_right h1]
  · intro n hn hlo hhi
    unfold coerceTerminalSize
    rw [hn]
    simp only [Option.getD_some]
    rw [min_eq_right hhi, max_eq_right hlo]
  · intro n hn hhi
    unfold coerceTerminalSize
    rw [hn]
    simp only [Option.getD_some]
    rw [min_eq_left hhi.le, max_eq_right (h1.trans h2)]
  · intro n hn hlo
    unfold coerceTerminalSize
    rw [hn]
    simp only [Option.getD_some]
    rw [min_eq_right (hlo.le.trans (h1.trans h2)), max_eq_left hlo.le]
  · intro sid rawCols rawRows
    refine ⟨rfl, ?_, ?_, ?_, ?_⟩
    · exact (coerceTerminalSize_mem _ 80 20 300 (by norm_num) (by norm_num)).1
    · exact (coerceTerminalSize_mem _ 80 20 300 (by norm_num) (by norm_num)).2
    · exact (coerceTerminalSize_mem _ 24 5 120 (by norm_num) (by norm_num)).1
    · exact (coerceTerminalSize_mem _ 24 5 120 (by norm_num) (by norm_num)).2

/-- Witness for C7: an in-range string value is kept verbatim and the open
message shape is correct. -/
theorem terminal_size_validation_witness :
    coerceTerminalSize (some (.str "250")) 80 20 300 = 250 ∧
    (wsNodeTerminalOpen "sess-2" none none).msg_type = "terminal_open" :=
  ⟨(terminal_size_validation (some (.str "250")) 80 20 300 (by norm_num)
      (by norm_num)).2.2.1 250 rfl (by norm_num) (by norm_num),
   ((terminal_size_validation none 80 20 300 (by norm_num) (by norm_num)).2.2.2.2.2
      "sess-2" none none).1⟩

/-! ### C8: supersession -/

/-- The empty router state. -/
def cexRouter0 : RouterState :=
  { activeConnections := fun _ => none, wsOutbound := fun _ => [] }

/-- The router after connection `conn-a` authenticates for node `n-1`. -/
def cexRouter1 : RouterState := (activateAgentConnection "n-1" "conn-a" cexRouter0).2

/-- The router after connection `conn-b` authenticates for the same node. -/
def cexRouter2 : RouterState := (activateAgentConnection "n-1" "conn-b" cexRouter1).2

/-- A live terminal session of node `n-1`. -/
def cexSessions : List TermSession := [{ session_id := "sess-1", node_id := "n-1" }]

/-- Claim C8 counterexample: the superseded handler emits the error frame
and exits, but its `finally` block closes no terminal session (the
deactivate guard fails because the connection is no longer current), while
a close would have produced a synthetic `terminal_error` for `sess-1`. -/
theorem superseded_sessions_not_closed_counterexample :
    agentWriterIteration cexRouter2 "n-1" "conn-a" =
      .exitSuperseded "superseded_connection" ∧
    (agentFinally cexRouter2 cexSessions "n-1" "conn-a").2 = [] ∧
    closeTerminalSessionsForNode cexSessions "n-1" "Agent websocket disconnected" =
      [{ session_id := "sess-1", error := "Agent websocket disconnected" }] :=
  ⟨rfl, rfl, rfl⟩

/-- Claim C8 (amended): at most one agent connection is current per node
at any instant; after a second connection activates, the superseded
handler exits its loop in its next iteration after emitting
`superseded_connection` — but its terminal sessions are NOT closed by the
superseded handler: the synthetic `terminal_error` closure runs only when
a connection that is still current disconnects. -/
theorem supersession_single_writer (s : RouterState) (nodeId oldId newId : String)
    (sessions : List TermSession) :
    (∀ c1 c2, isCurrentAgentConnection nodeId c1 s = true →
       isCurrentAgentConnection nodeId c2 s = true → c1 = c2) ∧
    (∀ prev s1, activateAgentConnection nodeId newId s = (prev, s1) →
       isCurrentAgentConnection nodeId newId s1 = true ∧
       (oldId ≠ newId → isCurrentAgentConnection nodeId oldId s1 = false) ∧
       (oldId ≠ newId →
          agentWriterIteration s1 nodeId oldId = .exitSuperseded "superseded_connection") ∧
       (oldId ≠ newId → (agentFinally s1 sessions nodeId oldId).2 = [])) ∧
    (isCurrentAgentConnection nodeId oldId s = true →
       (agentFinally s sessions nodeId oldId).2 =
         closeTerminalSessionsForNode sessions nodeId "Agent websocket disconnected") := by
  refine ⟨?_, ?_, ?_⟩
  · intro c1 c2 hc1 hc2
    simp only [isCurrentAgentConnection, decide_eq_true_eq] at hc1 hc2
    rw [hc1] at hc2
    exact (Option.some.injEq _ _ ▸ hc2).symm ▸ rfl
  · intro prev s1 hact
    simp only [activateAgentConnection, Prod.mk.injEq] at hact
    obtain ⟨-, hs1⟩ := hact
    subst hs1
    have hcur : isCurrentAgentConnection nodeId newId
        { s with activeConnections := fun k =>
            if k = nodeId then some newId else s.activeConnections k } = true := by
      simp [isCurrentAgentConnection]
    refine ⟨hcur, ?_, ?_, ?_⟩
    · intro hne
      simp [isCurrentAgentConnection, Ne.symm hne]
    · intro hne
      simp [agentWriterIteration, isCurrentAgentConnection, Ne.symm hne]
    · intro hne
      simp [agentFinally, deactivateAgentConnection, Ne.symm hne]
  · intro hcur
    simp only [isCurrentAgentConnection, decide_eq_true_eq] at hcur
    simp [agentFinally, deactivateAgentConnection, hcur]

/-- Witness for C8 on the concrete two-connection scenario. -/
theorem supersession_single_writer_witness :
    isCurrentAgentConnection "n-1" "conn-b" cexRouter2 = true ∧
    isCurrentAgentConnection "n-1" "conn-a" cexRouter2 = false ∧
    (agentFinally cexRouter2 cexSessions "n-1" "conn-a").2 = [] ∧
    (agentFinally cexRouter1 cexSessions "n-1" "conn-a").2 =
      closeTerminalSessionsForNode cexSessions "n-1" "Agent websocket disconnected" := by
  have h := supersession_single_writer cexRouter1 "n-1" "conn-a" "conn-b" cexSessions
  have ha := h.2.1 (some "conn-a") cexRouter2 rfl
  exact ⟨ha.1, ha.2.1 (by decide), ha.2.2.2 (by decide),
    (supersession_single_writer cexRouter1 "n-1" "conn-a" "conn-b" cexSessions).2.2 rfl⟩

/-! ### C2: terminal command operations mirror the VM pattern -/

/-- Claim C2: the Store provides `queue_terminal_command`,
`apply_terminal_command_result` and `list_terminal_commands`, mirroring
the VM operation pattern — queueing produces a queued Operation row and a
ready-to-dispatch `terminal_exec` command with `command_id =
operation_id`, results are applied monotonically (running fills
`started_at` once, terminal statuses set `ended_at`), listing returns at
most the clamped limit of recent commands — and the HTTP endpoints of the
master dispatch on exactly these outcomes. -/
theorem terminal_commands_mirror_vm_pattern (node : NodeRow) (cmdText opId now : String) :
    (node.state = "paired" → pyStrip cmdText ≠ "" →
       queueTerminalCommand (some node) cmdText opId now =
         .ok { id := opId, node_id := node.id, command_text := pyStrip cmdText
               status := "queued", result := none, error := none
               created_at := now, started_at := none, ended_at := none }
            { command_type := "terminal_exec", command_id := opId
              operation_id := opId, command_text := pyStrip cmdText, created_at := now }) ∧
    (∀ op cmd, queueTerminalCommand (some node) cmdText opId now = .ok op cmd →
       cmd.command_id = cmd.operation_id ∧ cmd.command_id = op.id ∧
       op.status = "queued" ∧ op.started_at = none ∧ op.ended_at = none ∧
       cmd.command_type = "terminal_exec") ∧
    (∀ (op : TerminalOperation) (st msg : String) (d : Option JVal) (now2 : String) op2,
       applyTerminalCommandResult (some op) st msg d now2 = .okRunning op2 →
       op2.status = "running" ∧ op2.started_at = some (op.started_at.getD now2) ∧
       op2.ended_at = op.ended_at) ∧
    (∀ (op : TerminalOperation) (st msg : String) (d : Option JVal) (now2 : String) op2,
       applyTerminalCommandResult (some op) st msg d now2 = .okTerminal op2 →
       (op2.status = "succeeded" ∨ op2.status = "failed") ∧
       op2.started_at.isSome = true ∧ op2.ended_at = some now2) ∧
    (∀ (ops : List TerminalOperation) (limit : Int) items,
       listTerminalCommands true ops limit = .ok items →
       items.length ≤ (max 1 (min limit 200)).toNat ∧ items <+: ops) ∧
    (postNodeTerminalExecHttpCode (queueTerminalCommand none cmdText opId now) = 404 ∧
     postNodeTerminalExecHttpCode .nodeNotPaired = 409 ∧
     (∀ e, postNodeTerminalExecHttpCode (.invalidPayload e) = 400) ∧
     (∀ op cmd, postNodeTerminalExecHttpCode (.ok op cmd) = 202)) := by
  refine ⟨?_, ?_, ?_, ?_, ?_, rfl, rfl, fun e => rfl, fun op cmd => rfl⟩
  · intro hp hc
    simp [queueTerminalCommand, hp, hc]
  · intro op cmd h
    by_cases hp : node.state = "paired"
    · by_cases hc : pyStrip cmdText = ""
      · simp [queueTerminalCommand, hp, hc] at h
      · simp only [queueTerminalCommand, hp, ne_eq, not_true_eq_false, if_false, hc,
          reduceIte, QueueTerminalOutcome.ok.injEq] at h
        obtain ⟨ho, hcmd⟩ := h
        subst ho
        subst hcmd
        exact ⟨rfl, rfl, rfl, rfl, rfl, rfl⟩
    · simp [queueTerminalCommand, hp] at h
  · intro op st msg d now2 op2 h
    by_cases hrun : pyLower (pyStrip st) = "running"
    · simp only [applyTerminalCommandResult, hrun, reduceIte,
        ApplyTerminalOutcome.okRunning.injEq] at h
      subst h
      exact ⟨rfl, rfl, rfl⟩
    · simp [applyTerminalCommandResult, hrun] at h
  · intro op st msg d now2 op2 h
    by_cases hrun : pyLower (pyStrip st) = "running"
    · simp [applyTerminalCommandResult, hrun] at h
    · simp only [applyTerminalCommandResult, hrun, reduceIte,
        ApplyTerminalOutcome.okTerminal.injEq] at h
      subst h
      refine ⟨?_, rfl, rfl⟩
      by_cases hs : pyLower (pyStrip st) = "succeeded"
      · exact Or.inl (by simp [hs])
      · exact Or.inr (by simp [hs])
  · intro ops limit items h
    simp only [listTerminalCommands, not_true_eq_false, if_false, reduceIte,
      ListTerminalResult.ok.injEq] at h
    subst h
    exact ⟨List.length_take_le _ _, List.take_prefix _ _⟩

/-- Witness for C2: queueing `uname -a` on a paired node and applying a
running result to the queued operation. -/
theorem terminal_commands_mirror_vm_pattern_witness :
    queueTerminalCommand (some readyNode) "uname -a" "op-9" "t1" =
      .ok { id := "op-9", node_id := "n-1", command_text := "uname -a"
            status := "queued", result := none, error := none
            created_at := "t1", started_at := none, ended_at := none }
         { command_type := "terminal_exec", command_id := "op-9"
           operation_id := "op-9", command_text := "uname -a", created_at := "t1" } ∧
    (("running" : String) = "running" ∧
     (some "t2" : Option String) = some ((none : Option String).getD "t2") ∧
     (none : Option String) = none) :=
  ⟨(terminal_commands_mirror_vm_pattern readyNode "uname -a" "op-9" "t1").1 rfl (by decide),
   (terminal_commands_mirror_vm_pattern readyNode "uname -a" "op-9" "t1").2.2.1
     { id := "op-9", node_id := "n-1", command_text := "uname -a"
       status := "queued", result := none, error := none
       created_at := "t1", started_at := none, ended_at := none }
     "running" "started" none "t2"
     { id := "op-9", node_id := "n-1", command_text := "uname -a"
       status := "running", result := none, error := none
       created_at := "t1", started_at := some "t2", ended_at := none }
     rfl⟩

end Lattice
